import Mathlib

/-!
Verification development for the error-construction module `src/errors.ts`
(a tree-shaken copy of Node's `lib/internal/errors.js`).

The module is embedded shallowly:
* JavaScript values that reach the registered message rules are modelled by
  `JsVal` (strings, booleans, `undefined`, and URL objects of which only
  `protocol` and `href` are ever read).
* Thrown JavaScript exceptions are modelled by `Except JsErr`; `JsErr`
  distinguishes assertion failures (`assert(...)`) from type errors
  (property access on `undefined`, calling a missing method).
* The mutable global `Error.stackTraceLimit` together with its property
  descriptor is modelled by `JsGlobal`; functions that mutate it are state
  passing, returning the new global alongside the result.
* `Error.captureStackTrace` is an external V8 primitive; it is a parameter
  (`CaptureOracle`) of the trace-capturing functions, because it can throw
  in JavaScript (for example when the target object is frozen).  The oracle
  `defaultCapture` models the ordinary successful capture.
-/

set_option maxRecDepth 8192

namespace NodeErrors

/-- A JavaScript value as it can reach the registered message rules:
a string, a boolean, `undefined`, or a URL object (of which the rules read
only `protocol`; `href` stands for its string conversion). -/
inductive JsVal where
  | vstr (s : String)
  | vbool (b : Bool)
  | vundefined
  | vurl (protocol : String) (href : String)
deriving DecidableEq

/-- A thrown JavaScript exception: an `AssertionError` from `assert(...)`,
or a `TypeError` (reading a property of `undefined`, calling a missing
method, defining a property on a frozen object). -/
inductive JsErr where
  | assertionError (message : String)
  | typeError (message : String)
deriving DecidableEq

/-- JavaScript truthiness of a model value. -/
def truthy : JsVal → Bool
  | .vstr s => !(s == "")
  | .vbool b => b
  | .vundefined => false
  | .vurl _ _ => true

/-- String conversion as performed by template-literal interpolation
(`String(v)`). -/
def jsToStr : JsVal → String
  | .vstr s => s
  | .vbool true => "true"
  | .vbool false => "false"
  | .vundefined => "undefined"
  | .vurl _ href => href

/-- JSON string escaping of quote and backslash (the part of
`JSON.stringify` exercised by string values in this module). -/
def jsonEscape (s : String) : String :=
  String.mk (s.toList.foldr
    (fun c acc => if c == '"' || c == '\\' then '\\' :: c :: acc else c :: acc) [])

/-- Model of `JSON.stringify(v)` as interpolated into a template literal:
`JSON.stringify(undefined)` is `undefined`, which the template renders as
the text `undefined`; a URL serializes through its `toJSON` to its href. -/
def jsonStringify : JsVal → String
  | .vstr s => "\"" ++ jsonEscape s ++ "\""
  | .vbool true => "true"
  | .vbool false => "false"
  | .vundefined => "undefined"
  | .vurl _ href => "\"" ++ jsonEscape href ++ "\""

/-- Model of the external `util.inspect` on the primitive values of the
model: strings render single-quoted, the other primitives render as their
string conversion.  (Escaping of nested quotes and object layout are not
modelled; no claim depends on them.) -/
def inspect : JsVal → String
  | .vstr s => "'" ++ s ++ "'"
  | .vbool true => "true"
  | .vbool false => "false"
  | .vundefined => "undefined"
  | .vurl _ href => href

/-- JavaScript strict equality of a model value with a string literal. -/
def strictEqStr (v : JsVal) (s : String) : Bool :=
  match v with
  | .vstr t => t == s
  | _ => false

/-- JavaScript strict equality of a model value with `false`. -/
def strictEqFalse : JsVal → Bool
  | .vbool false => true
  | _ => false

/-- Positional argument access of a JavaScript call: a parameter beyond the
supplied arguments is `undefined`. -/
def arg (args : List JsVal) (i : Nat) : JsVal :=
  args.getD i .vundefined

/-- Positional argument access for a parameter with a declared default:
in JavaScript the default applies exactly when the incoming value is
`undefined`. -/
def argD (args : List JsVal) (i : Nat) (dflt : JsVal) : JsVal :=
  match args.getD i .vundefined with
  | .vundefined => dflt
  | v => v

/-- Message function of `ERR_INVALID_MODULE_SPECIFIER`
(`(request, reason, base = undefined)`, required parameter count 2). -/
def ERR_INVALID_MODULE_SPECIFIER_msg (args : List JsVal) : Except JsErr String :=
  let request := arg args 0
  let reason := arg args 1
  let base := argD args 2 .vundefined
  .ok ("Invalid module \"" ++ jsToStr request ++ "\" " ++ jsToStr reason ++
    (if truthy base then " imported from " ++ jsToStr base else ""))

/-- Message function of `ERR_INVALID_PACKAGE_CONFIG`
(`(path, base, message)`, no declared defaults, required parameter count 3). -/
def ERR_INVALID_PACKAGE_CONFIG_msg (args : List JsVal) : Except JsErr String :=
  let path := arg args 0
  let base := arg args 1
  let message := arg args 2
  .ok ("Invalid package config " ++ jsToStr path ++
    (if truthy base then " while importing " ++ jsToStr base else "") ++
    (if truthy message then ". " ++ jsToStr message else ""))

/-- Message function of `ERR_INVALID_PACKAGE_TARGET`
(`(pkgPath, key, target, isImport = false, base = undefined)`, required
parameter count 3).  It contains `assert(isImport === false)` in the
`key === "."` branch. -/
def ERR_INVALID_PACKAGE_TARGET_msg (args : List JsVal) : Except JsErr String :=
  let pkgPath := arg args 0
  let key := arg args 1
  let target := arg args 2
  let isImport := argD args 3 (.vbool false)
  let base := argD args 4 .vundefined
  let relError :=
    (match target with
     | .vstr t => !(truthy isImport) && (t.length != 0) && !(t.startsWith "./")
     | _ => false)
  if strictEqStr key "." then
    if strictEqFalse isImport then
      .ok ("Invalid \"exports\" main target " ++ jsonStringify target ++
        " defined in the package config " ++ jsToStr pkgPath ++ "package.json" ++
        (if truthy base then " imported from " ++ jsToStr base else "") ++
        (if relError then "; targets must start with \"./\"" else ""))
    else
      .error (.assertionError "The expression evaluated to a falsy value")
  else
    .ok ("Invalid \"" ++ (if truthy isImport then "imports" else "exports") ++
      "\" target " ++ jsonStringify target ++ " defined for '" ++ jsToStr key ++
      "' in the package config " ++ jsToStr pkgPath ++ "package.json" ++
      (if truthy base then " imported from " ++ jsToStr base else "") ++
      (if relError then "; targets must start with \"./\"" else ""))

/-- Message function of `ERR_MODULE_NOT_FOUND`
(`(path, base, type = "package")`, required parameter count 2). -/
def ERR_MODULE_NOT_FOUND_msg (args : List JsVal) : Except JsErr String :=
  let path := arg args 0
  let base := arg args 1
  let type := argD args 2 (.vstr "package")
  .ok ("Cannot find " ++ jsToStr type ++ " '" ++ jsToStr path ++
    "' imported from " ++ jsToStr base)

/-- Message function of `ERR_PACKAGE_IMPORT_NOT_DEFINED`
(`(specifier, packagePath, base)`, required parameter count 3). -/
def ERR_PACKAGE_IMPORT_NOT_DEFINED_msg (args : List JsVal) : Except JsErr String :=
  let specifier := arg args 0
  let packagePath := arg args 1
  let base := arg args 2
  .ok ("Package import specifier \"" ++ jsToStr specifier ++ "\" is not defined" ++
    (if truthy packagePath then " in package " ++ jsToStr packagePath ++ "package.json" else "") ++
    " imported from " ++ jsToStr base)

/-- Message function of `ERR_PACKAGE_PATH_NOT_EXPORTED`
(`(pkgPath, subpath, base = undefined)`, required parameter count 2). -/
def ERR_PACKAGE_PATH_NOT_EXPORTED_msg (args : List JsVal) : Except JsErr String :=
  let pkgPath := arg args 0
  let subpath := arg args 1
  let base := argD args 2 .vundefined
  if strictEqStr subpath "." then
    .ok ("No \"exports\" main defined in " ++ jsToStr pkgPath ++ "package.json" ++
      (if truthy base then " imported from " ++ jsToStr base else ""))
  else
    .ok ("Package subpath '" ++ jsToStr subpath ++
      "' is not defined by \"exports\" in " ++ jsToStr pkgPath ++ "package.json" ++
      (if truthy base then " imported from " ++ jsToStr base else ""))

/-- Message function of `ERR_INVALID_ARG_VALUE`
(`(name, value, reason = "is invalid")`, required parameter count 2).
`inspect(value)` is truncated to its first 128 characters plus `...` when
longer than 128 characters; `name.includes(".")` throws a `TypeError` when
`name` is not a string. -/
def ERR_INVALID_ARG_VALUE_msg (args : List JsVal) : Except JsErr String :=
  let name := arg args 0
  let value := arg args 1
  let reason := argD args 2 (.vstr "is invalid")
  let inspected0 := inspect value
  let inspected :=
    if inspected0.length > 128 then inspected0.take 128 ++ "..." else inspected0
  match name with
  | .vstr n =>
    let type := if n.contains '.' then "property" else "argument"
    .ok ("The " ++ type ++ " '" ++ n ++ "' " ++ jsToStr reason ++
      ". Received " ++ inspected)
  | .vundefined => .error (.typeError "Cannot read properties of undefined (reading 'includes')")
  | _ => .error (.typeError "name.includes is not a function")

/-- Message function of `ERR_UNSUPPORTED_ESM_URL_SCHEME` (`(url)`, required
parameter count 1).  `url.protocol` throws on `undefined`; on a non-URL
value it is `undefined`, so `url.protocol.length` (evaluated only on
Windows) throws while the final interpolation renders `undefined`. -/
def ERR_UNSUPPORTED_ESM_URL_SCHEME_msg (isWindows : Bool) (args : List JsVal) :
    Except JsErr String :=
  let url := arg args 0
  match url with
  | .vundefined => .error (.typeError "Cannot read properties of undefined (reading 'protocol')")
  | .vurl protocol _ =>
    let m0 := "Only file and data URLs are supported by the default ESM loader"
    let m1 :=
      if isWindows && (protocol.length == 2) then
        m0 ++ ". On Windows, absolute paths must be valid file:// URLs"
      else m0
    .ok (m1 ++ ". Received protocol '" ++ protocol ++ "'")
  | _ =>
    if isWindows then
      .error (.typeError "Cannot read properties of undefined (reading 'length')")
    else
      .ok ("Only file and data URLs are supported by the default ESM loader. Received protocol 'undefined'")

/-- A registered message rule: either a message function with its required
parameter count (JavaScript `fn.length`, which does not count parameters
with defaults), or a fixed template string with `%`-placeholders. -/
inductive MessageRule where
  | fnRule (length : Nat) (resolve : List JsVal → Except JsErr String)
  | strRule (template : String)

/-- One `createError(sym, value, def)` registration: the code, its message
rule, and the `name` of the declared base constructor. -/
structure RegEntry where
  code : String
  rule : MessageRule
  baseName : String

/-- The registrations performed at module load, in source order.  The only
environment dependence is `isWindows` (`process.platform === "win32"`),
which the `ERR_UNSUPPORTED_ESM_URL_SCHEME` rule closes over. -/
def registry (isWindows : Bool) : List RegEntry :=
  [ ⟨"ERR_INVALID_MODULE_SPECIFIER", .fnRule 2 ERR_INVALID_MODULE_SPECIFIER_msg, "TypeError"⟩,
    ⟨"ERR_INVALID_PACKAGE_CONFIG", .fnRule 3 ERR_INVALID_PACKAGE_CONFIG_msg, "Error"⟩,
    ⟨"ERR_INVALID_PACKAGE_TARGET", .fnRule 3 ERR_INVALID_PACKAGE_TARGET_msg, "Error"⟩,
    ⟨"ERR_MODULE_NOT_FOUND", .fnRule 2 ERR_MODULE_NOT_FOUND_msg, "Error"⟩,
    ⟨"ERR_PACKAGE_IMPORT_NOT_DEFINED", .fnRule 3 ERR_PACKAGE_IMPORT_NOT_DEFINED_msg, "TypeError"⟩,
    ⟨"ERR_PACKAGE_PATH_NOT_EXPORTED", .fnRule 2 ERR_PACKAGE_PATH_NOT_EXPORTED_msg, "Error"⟩,
    ⟨"ERR_UNSUPPORTED_DIR_IMPORT",
      .strRule "Directory import '%s' is not supported resolving ES modules imported from %s", "Error"⟩,
    ⟨"ERR_UNKNOWN_FILE_EXTENSION", .strRule "Unknown file extension \"%s\" for %s", "TypeError"⟩,
    ⟨"ERR_INVALID_ARG_VALUE", .fnRule 2 ERR_INVALID_ARG_VALUE_msg, "TypeError"⟩,
    ⟨"ERR_UNSUPPORTED_ESM_URL_SCHEME",
      .fnRule 1 (ERR_UNSUPPORTED_ESM_URL_SCHEME_msg isWindows), "Error"⟩ ]

/-- The `messages` map after the module-load registrations (the
`messages.set(sym, value)` calls in `createError`). -/
def messages (isWindows : Bool) : String → Option MessageRule
  | "ERR_INVALID_MODULE_SPECIFIER" => some (.fnRule 2 ERR_INVALID_MODULE_SPECIFIER_msg)
  | "ERR_INVALID_PACKAGE_CONFIG" => some (.fnRule 3 ERR_INVALID_PACKAGE_CONFIG_msg)
  | "ERR_INVALID_PACKAGE_TARGET" => some (.fnRule 3 ERR_INVALID_PACKAGE_TARGET_msg)
  | "ERR_MODULE_NOT_FOUND" => some (.fnRule 2 ERR_MODULE_NOT_FOUND_msg)
  | "ERR_PACKAGE_IMPORT_NOT_DEFINED" => some (.fnRule 3 ERR_PACKAGE_IMPORT_NOT_DEFINED_msg)
  | "ERR_PACKAGE_PATH_NOT_EXPORTED" => some (.fnRule 2 ERR_PACKAGE_PATH_NOT_EXPORTED_msg)
  | "ERR_UNSUPPORTED_DIR_IMPORT" =>
      some (.strRule "Directory import '%s' is not supported resolving ES modules imported from %s")
  | "ERR_UNKNOWN_FILE_EXTENSION" => some (.strRule "Unknown file extension \"%s\" for %s")
  | "ERR_INVALID_ARG_VALUE" => some (.fnRule 2 ERR_INVALID_ARG_VALUE_msg)
  | "ERR_UNSUPPORTED_ESM_URL_SCHEME" =>
      some (.fnRule 1 (ERR_UNSUPPORTED_ESM_URL_SCHEME_msg isWindows))
  | _ => none

/-- Number of matches of the regular expression `/%[dfijoOs]/g`: a
non-overlapping left-to-right scan for `%` followed by one of
`d f i j o O s`. -/
def countPlaceholders : List Char → Nat
  | [] => 0
  | '%' :: c :: rest =>
    if c == 'd' || c == 'f' || c == 'i' || c == 'j' || c == 'o' || c == 'O' || c == 's' then
      1 + countPlaceholders rest
    else
      countPlaceholders (c :: rest)
  | _ :: rest => countPlaceholders rest

/-- `(message.match(/%[dfijoOs]/g) || []).length` of `getMessage`. -/
def expectedLength (template : String) : Nat :=
  countPlaceholders template.toList

/-- Rendering of a surplus argument by `util.format`: strings verbatim,
everything else through `inspect`. -/
def formatExtra : JsVal → String
  | .vstr s => s
  | v => inspect v

/-- Surplus arguments past the template are appended space-separated. -/
def formatExtras : List JsVal → String
  | [] => ""
  | a :: rest => " " ++ formatExtra a ++ formatExtras rest

/-- Model of the external `util.format` scan over the template: `%s`
consumes the next argument, `%%` is a literal percent, any other text (and
a `%s` with no argument left) is copied; the templates registered in this
module contain only `%s` placeholders. -/
def formatChars : List Char → List JsVal → String
  | [], args => formatExtras args
  | '%' :: 's' :: cs, a :: rest => jsToStr a ++ formatChars cs rest
  | '%' :: '%' :: cs, args => "%" ++ formatChars cs args
  | c :: cs, args => String.singleton c ++ formatChars cs args

/-- Model of the external `util.format(template, ...args)`. -/
def format (template : String) (args : List JsVal) : String :=
  formatChars template.toList args

/-- The diagnostic text of the argument-count assertion in `getMessage`. -/
def arityDiag (key : String) (supplied required : Nat) : String :=
  "Code: " ++ key ++ "; The provided arguments length (" ++ toString supplied ++
    ") does not match the required ones (" ++ toString required ++ ")."

/-- `getMessage(key, args, self)`.  For a function rule it asserts
`message.length <= args.length` and applies the function; for a string
rule it asserts that the placeholder count equals the argument count and
formats.  An unregistered key leaves `message` as `undefined`, which fails
at `message.match(...)` with a `TypeError` (the function branch is not
taken because `undefined` is not a function).  The `self` receiver is
omitted: no registered rule reads `this`. -/
def getMessage (isWindows : Bool) (key : String) (args : List JsVal) :
    Except JsErr String :=
  match messages isWindows key with
  | some (.fnRule len resolve) =>
    if len ≤ args.length then resolve args
    else .error (.assertionError (arityDiag key args.length len))
  | some (.strRule template) =>
    if expectedLength template == args.length then
      if args.length == 0 then .ok template
      else .ok (format template args)
    else .error (.assertionError (arityDiag key args.length (expectedLength template)))
  | none => .error (.typeError "Cannot read properties of undefined (reading 'match')")

/-- The own property descriptor of `Error.stackTraceLimit` as
`isErrorStackTraceLimitWritable` reads it: whether it has an own
`writable` field, that field's value, and whether a setter is present. -/
structure PropDesc where
  hasWritableField : Bool
  writable : Bool
  hasSetter : Bool
deriving DecidableEq

/-- The global `Error.stackTraceLimit` value: a number or
`Number.POSITIVE_INFINITY`. -/
inductive TraceLimit where
  | num (n : Int)
  | posInf
deriving DecidableEq

/-- The mutable global state the module touches: `Error.stackTraceLimit`,
its property descriptor, and whether the `Error` constructor object is
extensible. -/
structure JsGlobal where
  stackTraceLimit : TraceLimit
  stackTraceLimitDesc : Option PropDesc
  errorExtensible : Bool
deriving DecidableEq

/-- `isErrorStackTraceLimitWritable()`: with no descriptor the limit is
writable iff `Error` is extensible; with a descriptor, its `writable`
field if it has one, otherwise the presence of a setter. -/
def isErrorStackTraceLimitWritable (g : JsGlobal) : Bool :=
  match g.stackTraceLimitDesc with
  | none => g.errorExtensible
  | some desc => if desc.hasWritableField then desc.writable else desc.hasSetter

/-- A constructed error object.  `nameEnumerable` records whether the own
`name` property is enumerable (plain assignment creates an enumerable own
property, `Object.defineProperty` here always sets a non-enumerable one).
`toStringKey` is the `key` captured by the custom `toString` installed by
the factory (`none` before installation).  `stackHeader` is the header
line of the materialized stack trace (`none` while un-materialized; the
trace's frames are outside the model). -/
structure ErrObj where
  name : String
  nameEnumerable : Bool
  message : String
  code : Option String
  toStringKey : Option String
  stackHeader : Option String
deriving DecidableEq

/-- Calling the error's `toString` method: the installed custom method
returns `name [key]: message` from the current `name` and `message` and
the captured `key`; before installation there is no custom method
(`none`). -/
def jsToStringMethod (e : ErrObj) : Option String :=
  e.toStringKey.map (fun key => e.name ++ " [" ++ key ++ "]: " ++ e.message)

/-- The external `Error.captureStackTrace` primitive, as a parameter: it
may mutate the error and may throw (in JavaScript it throws for example
when the target object is frozen). -/
def CaptureOracle : Type :=
  JsGlobal → ErrObj → Except JsErr ErrObj

/-- The ordinary successful capture: records the (lazy) trace and returns.
The trace's header line is materialized later, at the first access of
`error.stack`. -/
def defaultCapture : CaptureOracle := fun _ e => .ok e

/-- `captureLargerStackTrace(error)`: when the limit is writable, saves it
and sets it to infinity, captures, then restores it.  The source has no
`try`/`finally`, so an exception from the capture call itself propagates
before the restoring write. -/
def captureLargerStackTrace (capture : CaptureOracle) (g : JsGlobal) (e : ErrObj) :
    Except JsErr ErrObj × JsGlobal :=
  let stackTraceLimitIsWritable := isErrorStackTraceLimitWritable g
  let userStackTraceLimit := g.stackTraceLimit
  let g1 := if stackTraceLimitIsWritable then { g with stackTraceLimit := .posInf } else g
  match capture g1 e with
  | .error err => (.error err, g1)
  | .ok e1 =>
    let g2 := if stackTraceLimitIsWritable then { g1 with stackTraceLimit := userStackTraceLimit } else g1
    (.ok e1, g2)

/-- `addCodeToName(error, name, code)`: captures the larger stack trace,
sets `error.name` to `name [code]` (a plain assignment, hence an
enumerable own property), accesses `error.stack` to materialize the trace
with that header, then resets the name: for `SystemError` a non-enumerable
property definition restoring the bare name, otherwise a plain assignment
of the empty string. -/
def addCodeToName (capture : CaptureOracle) (g : JsGlobal) (e : ErrObj)
    (name code : String) : Except JsErr ErrObj × JsGlobal :=
  match captureLargerStackTrace capture g e with
  | (.error err, g1) => (.error err, g1)
  | (.ok e1, g1) =>
    let codedName := name ++ " [" ++ code ++ "]"
    let e2 := { e1 with name := codedName, nameEnumerable := true }
    let e3 := { e2 with stackHeader := some (codedName ++ ": " ++ e2.message) }
    if name == "SystemError" then
      (.ok { e3 with name := name, nameEnumerable := false }, g1)
    else
      (.ok { e3 with name := "", nameEnumerable := true }, g1)

/-- The `NodeError` constructor returned by `makeNodeErrorWithCode(Base,
key)`: zeroes the trace limit around `new Base()` (restoring it), resolves
the message, installs `message` and the custom `toString`, runs
`addCodeToName`, and finally sets `code`.  `Base` is the `name` of the
declared base constructor.  An exception from `getMessage` (or from the
capture) propagates. -/
def NodeError (capture : CaptureOracle) (isWindows : Bool) (Base : String)
    (key : String) (args : List JsVal) (g : JsGlobal) :
    Except JsErr ErrObj × JsGlobal :=
  let limit := g.stackTraceLimit
  let wr := isErrorStackTraceLimitWritable g
  let g1 := if wr then { g with stackTraceLimit := .num 0 } else g
  let error0 : ErrObj :=
    { name := Base, nameEnumerable := false, message := "", code := none,
      toStringKey := none, stackHeader := none }
  let g2 := if wr then { g1 with stackTraceLimit := limit } else g1
  match getMessage isWindows key args with
  | .error err => (.error err, g2)
  | .ok message =>
    let e1 := { error0 with message := message, toStringKey := some key }
    match addCodeToName capture g2 e1 Base key with
    | (.error err, g3) => (.error err, g3)
    | (.ok e2, g3) => (.ok { e2 with code := some key }, g3)

/-- Required argument count of a rule: the function's required parameter
count, or the template's placeholder count. -/
def requiredLen : MessageRule → Nat
  | .fnRule len _ => len
  | .strRule template => expectedLength template

/-- Declared type of a required parameter, from the source signatures. -/
inductive ParamTy where
  | tyStr
  | tyUnknown
  | tyUrl
deriving DecidableEq

/-- Whether a model value fits a declared parameter type. -/
def wellTypedVal : ParamTy → JsVal → Bool
  | .tyStr, .vstr _ => true
  | .tyUnknown, _ => true
  | .tyUrl, .vurl _ _ => true
  | _, _ => false

/-- Declared types of each code's required parameters (string-rule codes
substitute their placeholders with strings). -/
def requiredParamTys : String → List ParamTy
  | "ERR_INVALID_MODULE_SPECIFIER" => [.tyStr, .tyStr]
  | "ERR_INVALID_PACKAGE_CONFIG" => [.tyStr, .tyStr, .tyStr]
  | "ERR_INVALID_PACKAGE_TARGET" => [.tyStr, .tyStr, .tyUnknown]
  | "ERR_MODULE_NOT_FOUND" => [.tyStr, .tyStr]
  | "ERR_PACKAGE_IMPORT_NOT_DEFINED" => [.tyStr, .tyStr, .tyStr]
  | "ERR_PACKAGE_PATH_NOT_EXPORTED" => [.tyStr, .tyStr]
  | "ERR_UNSUPPORTED_DIR_IMPORT" => [.tyStr, .tyStr]
  | "ERR_UNKNOWN_FILE_EXTENSION" => [.tyStr, .tyStr]
  | "ERR_INVALID_ARG_VALUE" => [.tyStr, .tyUnknown]
  | "ERR_UNSUPPORTED_ESM_URL_SCHEME" => [.tyUrl]
  | _ => []

/-- The declared default values of each function rule's optional trailing
parameters, in order, from the source signatures. -/
def optionalDefaults : String → List JsVal
  | "ERR_INVALID_MODULE_SPECIFIER" => [.vundefined]
  | "ERR_INVALID_PACKAGE_TARGET" => [.vbool false, .vundefined]
  | "ERR_MODULE_NOT_FOUND" => [.vstr "package"]
  | "ERR_PACKAGE_PATH_NOT_EXPORTED" => [.vundefined]
  | "ERR_INVALID_ARG_VALUE" => [.vstr "is invalid"]
  | _ => []

/-- Pointwise check of an argument list against a parameter-type list,
forcing equal lengths. -/
def wellTypedList : List ParamTy → List JsVal → Bool
  | [], [] => true
  | t :: ts, a :: as => wellTypedVal t a && wellTypedList ts as
  | _, _ => false

/-- Argument lists whose entries fit the code's declared required
parameter types (in particular, exactly the required count of them). -/
def wellTypedArgs (code : String) (args : List JsVal) : Bool :=
  wellTypedList (requiredParamTys code) args

/-- The final error object produced by a successful `NodeError` call with
base-constructor name `b`, code `key` and resolved message `m`. -/
def finalErr (b key m : String) : ErrObj :=
  { name := if b == "SystemError" then b else "",
    nameEnumerable := !(b == "SystemError"),
    message := m,
    code := some key,
    toStringKey := some key,
    stackHeader := some (b ++ " [" ++ key ++ "]: " ++ m) }

/-- A writable configuration of `Error.stackTraceLimit`: a plain data
property with `writable: true` and limit 10 (Node's default). -/
def gWritable : JsGlobal :=
  { stackTraceLimit := .num 10,
    stackTraceLimitDesc := some { hasWritableField := true, writable := true, hasSetter := false },
    errorExtensible := true }

/-- A non-writable configuration of `Error.stackTraceLimit`: a data
property with `writable: false` (for example after freezing `Error`). -/
def gNonWritable : JsGlobal :=
  { stackTraceLimit := .num 10,
    stackTraceLimitDesc := some { hasWritableField := true, writable := false, hasSetter := false },
    errorExtensible := true }

/-- A freshly constructed plain error object, before the factory touches
it. -/
def plainErr : ErrObj :=
  { name := "Error", nameEnumerable := false, message := "", code := none,
    toStringKey := none, stackHeader := none }

/-- Whether a message-resolution outcome is the argument-count (or any
other) assertion failure, as opposed to a type error or success. -/
def isAssertionFailure : Except JsErr String → Bool
  | .error (.assertionError _) => true
  | _ => false

theorem append_colon_merge (s m : String) : s ++ "]" ++ ": " ++ m = s ++ "]: " ++ m := by
  have h : ("]" : String) ++ ": " = "]: " := rfl
  rw [String.append_assoc s "]" ": ", h]

theorem NodeError_ok_shape (isWindows : Bool) (b key m : String)
    (args : List JsVal) (g : JsGlobal)
    (h : getMessage isWindows key args = .ok m) :
    NodeError defaultCapture isWindows b key args g = (.ok (finalErr b key m), g) := by
  unfold NodeError addCodeToName captureLargerStackTrace defaultCapture finalErr
  rw [h]
  by_cases hw : isErrorStackTraceLimitWritable g <;>
    by_cases hb : (b == "SystemError") = true <;>
      simp [hw, hb, append_colon_merge]

theorem getMessage_fn_arity_fail (isWindows : Bool) (key : String) (len : Nat)
    (resolve : List JsVal → Except JsErr String) (args : List JsVal)
    (h : messages isWindows key = some (.fnRule len resolve))
    (hlt : args.length < len) :
    getMessage isWindows key args = .error (.assertionError (arityDiag key args.length len)) := by
  simp [getMessage, h, Nat.not_le.mpr hlt]

theorem getMessage_str_arity_fail (isWindows : Bool) (key : String)
    (template : String) (args : List JsVal)
    (h : messages isWindows key = some (.strRule template))
    (hne : args.length ≠ expectedLength template) :
    getMessage isWindows key args =
      .error (.assertionError (arityDiag key args.length (expectedLength template))) := by
  simp [getMessage, h]
  intro heq
  exact absurd heq.symm hne

theorem wellTyped_str {a : JsVal} (h : wellTypedVal .tyStr a = true) : ∃ s, a = .vstr s := by
  cases a with
  | vstr s => exact ⟨s, rfl⟩
  | vbool b => simp [wellTypedVal] at h
  | vundefined => simp [wellTypedVal] at h
  | vurl p href => simp [wellTypedVal] at h

theorem wellTyped_url {a : JsVal} (h : wellTypedVal .tyUrl a = true) :
    ∃ p href, a = .vurl p href := by
  cases a with
  | vstr s => simp [wellTypedVal] at h
  | vbool b => simp [wellTypedVal] at h
  | vundefined => simp [wellTypedVal] at h
  | vurl p href => exact ⟨p, href, rfl⟩

theorem NodeError_code_of_ok (isWindows : Bool) (b key m : String)
    (args : List JsVal) (g : JsGlobal)
    (h : getMessage isWindows key args = .ok m) :
    ((NodeError defaultCapture isWindows b key args g).1).map ErrObj.code = .ok (some key) := by
  rw [NodeError_ok_shape isWindows b key m args g h]; rfl

theorem NodeError_ok_inv (isWindows : Bool) (b key : String) (args : List JsVal)
    (g : JsGlobal) (e : ErrObj) (g2 : JsGlobal)
    (h : NodeError defaultCapture isWindows b key args g = (.ok e, g2)) :
    ∃ m, getMessage isWindows key args = .ok m ∧ e = finalErr b key m := by
  cases hm : getMessage isWindows key args with
  | error err => simp [NodeError, hm] at h
  | ok m =>
    refine ⟨m, rfl, ?_⟩
    rw [NodeError_ok_shape isWindows b key m args g hm] at h
    have h1 := congrArg Prod.fst h
    simp at h1
    exact h1.symm

/-- C1: for every code registered in the registry, calling the constructor
returned for that code with exactly the number of arguments its rule
requires (of the declared parameter types) does not throw, and the
returned error object's `code` property equals that code string. -/
theorem registered_code_constructs_with_code (isWindows : Bool) :
    ∀ ent ∈ registry isWindows, ∀ (args : List JsVal) (g : JsGlobal),
      wellTypedArgs ent.code args = true →
      ((NodeError defaultCapture isWindows ent.baseName ent.code args g).1).map ErrObj.code =
        .ok (some ent.code) := by
  intro ent hent args g hwt
  simp [registry] at hent
  rcases hent with rfl|rfl|rfl|rfl|rfl|rfl|rfl|rfl|rfl|rfl <;>
    rcases args with _|⟨a1,_|⟨a2,_|⟨a3,_|⟨a4,rest⟩⟩⟩⟩ <;>
      simp [wellTypedArgs, requiredParamTys, wellTypedList, Bool.and_eq_true] at hwt
  -- ERR_INVALID_MODULE_SPECIFIER [a1, a2]
  · obtain ⟨s1, rfl⟩ := wellTyped_str hwt.1
    obtain ⟨s2, rfl⟩ := wellTyped_str hwt.2
    exact NodeError_code_of_ok _ _ _ _ _ _ rfl
  -- ERR_INVALID_PACKAGE_CONFIG [a1, a2, a3]
  · obtain ⟨s1, rfl⟩ := wellTyped_str hwt.1
    obtain ⟨s2, rfl⟩ := wellTyped_str hwt.2.1
    obtain ⟨s3, rfl⟩ := wellTyped_str hwt.2.2
    exact NodeError_code_of_ok _ _ _ _ _ _ rfl
  -- ERR_INVALID_PACKAGE_TARGET [a1, a2, a3]
  · obtain ⟨s1, rfl⟩ := wellTyped_str hwt.1
    obtain ⟨s2, rfl⟩ := wellTyped_str hwt.2.1
    obtain ⟨m, hm⟩ : ∃ m, getMessage isWindows "ERR_INVALID_PACKAGE_TARGET"
        [JsVal.vstr s1, JsVal.vstr s2, a3] = .ok m := by
      show ∃ m, ERR_INVALID_PACKAGE_TARGET_msg [JsVal.vstr s1, JsVal.vstr s2, a3] = .ok m
      simp only [ERR_INVALID_PACKAGE_TARGET_msg]
      split <;> exact ⟨_, rfl⟩
    exact NodeError_code_of_ok _ _ _ _ _ _ hm
  -- ERR_MODULE_NOT_FOUND [a1, a2]
  · obtain ⟨s1, rfl⟩ := wellTyped_str hwt.1
    obtain ⟨s2, rfl⟩ := wellTyped_str hwt.2
    exact NodeError_code_of_ok _ _ _ _ _ _ rfl
  -- ERR_PACKAGE_IMPORT_NOT_DEFINED [a1, a2, a3]
  · obtain ⟨s1, rfl⟩ := wellTyped_str hwt.1
    obtain ⟨s2, rfl⟩ := wellTyped_str hwt.2.1
    obtain ⟨s3, rfl⟩ := wellTyped_str hwt.2.2
    exact NodeError_code_of_ok _ _ _ _ _ _ rfl
  -- ERR_PACKAGE_PATH_NOT_EXPORTED [a1, a2]
  · obtain ⟨s1, rfl⟩ := wellTyped_str hwt.1
    obtain ⟨s2, rfl⟩ := wellTyped_str hwt.2
    obtain ⟨m, hm⟩ : ∃ m, getMessage isWindows "ERR_PACKAGE_PATH_NOT_EXPORTED"
        [JsVal.vstr s1, JsVal.vstr s2] = .ok m := by
      show ∃ m, ERR_PACKAGE_PATH_NOT_EXPORTED_msg [JsVal.vstr s1, JsVal.vstr s2] = .ok m
      simp only [ERR_PACKAGE_PATH_NOT_EXPORTED_msg]
      split <;> exact ⟨_, rfl⟩
    exact NodeError_code_of_ok _ _ _ _ _ _ hm
  -- ERR_UNSUPPORTED_DIR_IMPORT [a1, a2]
  · obtain ⟨s1, rfl⟩ := wellTyped_str hwt.1
    obtain ⟨s2, rfl⟩ := wellTyped_str hwt.2
    exact NodeError_code_of_ok _ _ _ _ _ _ rfl
  -- ERR_UNKNOWN_FILE_EXTENSION [a1, a2]
  · obtain ⟨s1, rfl⟩ := wellTyped_str hwt.1
    obtain ⟨s2, rfl⟩ := wellTyped_str hwt.2
    exact NodeError_code_of_ok _ _ _ _ _ _ rfl
  -- ERR_INVALID_ARG_VALUE [a1, a2]
  · obtain ⟨s1, rfl⟩ := wellTyped_str hwt.1
    exact NodeError_code_of_ok _ _ _ _ _ _ rfl
  -- ERR_UNSUPPORTED_ESM_URL_SCHEME [a1]
  · obtain ⟨p, href, rfl⟩ := wellTyped_url hwt
    exact NodeError_code_of_ok _ _ _ _ _ _ rfl

/-- C1 witness: `ERR_MODULE_NOT_FOUND` constructed with its two required
string arguments yields `code = "ERR_MODULE_NOT_FOUND"`. -/
theorem registered_code_constructs_with_code_witness :
    ((NodeError defaultCapture false "Error" "ERR_MODULE_NOT_FOUND"
        [.vstr "x", .vstr "/b/"] gWritable).1).map ErrObj.code = .ok (some "ERR_MODULE_NOT_FOUND") :=
  registered_code_constructs_with_code false
    ⟨"ERR_MODULE_NOT_FOUND", .fnRule 2 ERR_MODULE_NOT_FOUND_msg, "Error"⟩
    (by simp [registry]) [.vstr "x", .vstr "/b/"] gWritable rfl

/-- C2 counterexample: `ERR_MODULE_NOT_FOUND` is a function rule with
required parameter count 2, yet supplying four arguments (a count that
differs from 2) does not trigger the argument-count assertion: `getMessage`
produces a message (the assertion only checks a lower bound,
`message.length <= args.length`). -/
theorem fn_rule_extra_args_accepted_cex :
    messages false "ERR_MODULE_NOT_FOUND" = some (.fnRule 2 ERR_MODULE_NOT_FOUND_msg) ∧
    getMessage false "ERR_MODULE_NOT_FOUND"
      [.vstr "x", .vstr "/b/", .vstr "module", .vstr "extra"] =
      .ok "Cannot find module 'x' imported from /b/" := ⟨rfl, rfl⟩

/-- C2 amended: for every registered code, an argument list shorter than
the rule's required count (function rules) or placeholder count (string
rules) fails with the argument-count assertion naming the code — in
particular one fewer argument always does — and for string rules any
count differing from the placeholder count (in either direction) fails
likewise; function rules accept argument lists longer than their required
parameter count. -/
theorem arity_assertion_amended (isWindows : Bool) :
    ∀ ent ∈ registry isWindows, ∀ args : List JsVal,
      (args.length < requiredLen ent.rule →
        getMessage isWindows ent.code args =
          .error (.assertionError (arityDiag ent.code args.length (requiredLen ent.rule)))) ∧
      (∀ template, ent.rule = .strRule template → args.length ≠ requiredLen ent.rule →
        getMessage isWindows ent.code args =
          .error (.assertionError (arityDiag ent.code args.length (requiredLen ent.rule)))) := by
  intro ent hent args
  simp [registry] at hent
  rcases hent with rfl|rfl|rfl|rfl|rfl|rfl|rfl|rfl|rfl|rfl <;>
    refine ⟨fun h => ?_, fun template ht hne => ?_⟩
  case _ => exact getMessage_fn_arity_fail _ _ _ _ _ rfl h
  case _ => simp at ht
  case _ => exact getMessage_fn_arity_fail _ _ _ _ _ rfl h
  case _ => simp at ht
  case _ => exact getMessage_fn_arity_fail _ _ _ _ _ rfl h
  case _ => simp at ht
  case _ => exact getMessage_fn_arity_fail _ _ _ _ _ rfl h
  case _ => simp at ht
  case _ => exact getMessage_fn_arity_fail _ _ _ _ _ rfl h
  case _ => simp at ht
  case _ => exact getMessage_fn_arity_fail _ _ _ _ _ rfl h
  case _ => simp at ht
  case _ => exact getMessage_str_arity_fail _ _ _ _ rfl (Nat.ne_of_lt h)
  case _ => exact getMessage_str_arity_fail _ _ _ _ rfl hne
  case _ => exact getMessage_str_arity_fail _ _ _ _ rfl (Nat.ne_of_lt h)
  case _ => exact getMessage_str_arity_fail _ _ _ _ rfl hne
  case _ => exact getMessage_fn_arity_fail _ _ _ _ _ rfl h
  case _ => simp at ht
  case _ => exact getMessage_fn_arity_fail _ _ _ _ _ rfl h
  case _ => simp at ht

/-- C2 witness: `ERR_UNKNOWN_FILE_EXTENSION` (a string rule with two
placeholders) resolved with one argument fails with the argument-count
assertion naming the code. -/
theorem arity_assertion_amended_witness :
    getMessage false "ERR_UNKNOWN_FILE_EXTENSION" [.vstr ".xyz"] =
      .error (.assertionError (arityDiag "ERR_UNKNOWN_FILE_EXTENSION" 1 2)) :=
  (arity_assertion_amended false
    ⟨"ERR_UNKNOWN_FILE_EXTENSION", .strRule "Unknown file extension \"%s\" for %s", "TypeError"⟩
    (by simp [registry]) [.vstr ".xyz"]).1 (by decide)

/-- C3 counterexample: resolving a message for the never-registered code
`ERR_DOES_NOT_EXIST` fails with an uninformative `TypeError` from reading
`match` of `undefined` — not with an assertion, and the diagnostic does
not name the offending code. -/
theorem unregistered_code_type_error_cex :
    getMessage false "ERR_DOES_NOT_EXIST" [] =
      .error (.typeError "Cannot read properties of undefined (reading 'match')") ∧
    isAssertionFailure (getMessage false "ERR_DOES_NOT_EXIST" []) = false := ⟨rfl, rfl⟩

/-- C3 amended: for every code string that was never registered and every
argument list, message resolution fails fatally, but with the `TypeError`
raised by reading a property of the missing (`undefined`) rule, whose
diagnostic does not name the offending code. -/
theorem unregistered_code_fails_with_type_error (isWindows : Bool) (key : String)
    (args : List JsVal) (h : messages isWindows key = none) :
    getMessage isWindows key args =
      .error (.typeError "Cannot read properties of undefined (reading 'match')") := by
  simp [getMessage, h]

/-- C3 witness: a concrete unregistered code. -/
theorem unregistered_code_fails_with_type_error_witness :
    getMessage true "ERR_TOTALLY_UNKNOWN" [.vstr "x"] =
      .error (.typeError "Cannot read properties of undefined (reading 'match')") :=
  unregistered_code_fails_with_type_error true "ERR_TOTALLY_UNKNOWN" [.vstr "x"] rfl

/-- C4 counterexample: with a writable limit of 10, when the capture step
itself throws (as `Error.captureStackTrace` can in JavaScript), the
exception propagates out of `captureLargerStackTrace` with the global
stack-trace limit left at infinity — the prior value is not restored,
because the source has no `try`/`finally`. -/
theorem capture_failure_leaves_limit_widened_cex :
    gWritable.stackTraceLimit = .num 10 ∧
    (captureLargerStackTrace
        (fun _ _ => .error (.typeError "Cannot define property stack: Object is not extensible"))
        gWritable plainErr).1 =
      .error (.typeError "Cannot define property stack: Object is not extensible") ∧
    (captureLargerStackTrace
        (fun _ _ => .error (.typeError "Cannot define property stack: Object is not extensible"))
        gWritable plainErr).2.stackTraceLimit = .posInf := ⟨rfl, rfl, rfl⟩

/-- C4 amended: `captureLargerStackTrace` restores the prior stack-trace
limit on every successful exit (for any behaviour of the external capture
primitive), and when the limit is not writable it neither modifies the
global state nor fails, proceeding with the default depth; but when the
capture step itself throws, the exception propagates without the limit
being restored. -/
theorem stack_trace_limit_restore :
    (∀ (capture : CaptureOracle) (g : JsGlobal) (e e2 : ErrObj),
      (captureLargerStackTrace capture g e).1 = .ok e2 →
      (captureLargerStackTrace capture g e).2 = g) ∧
    (∀ (g : JsGlobal) (e : ErrObj), isErrorStackTraceLimitWritable g = false →
      captureLargerStackTrace defaultCapture g e = (.ok e, g)) := by
  constructor
  · intro capture g e e2 h
    unfold captureLargerStackTrace at h ⊢
    cases hw : isErrorStackTraceLimitWritable g
    · simp only [hw, Bool.false_eq_true, if_false] at h ⊢
      cases hc : capture g e
      · simp [hc] at h
      · rfl
    · simp only [hw, if_true] at h ⊢
      cases hc : capture { g with stackTraceLimit := .posInf } e
      · simp [hc] at h
      · rfl
  · intro g e h
    unfold captureLargerStackTrace
    simp [h, defaultCapture]

/-- C4 witness: the restore on the successful path with a writable limit,
and the untouched state with a non-writable limit. -/
theorem stack_trace_limit_restore_witness :
    (captureLargerStackTrace defaultCapture gWritable plainErr).2 = gWritable ∧
    captureLargerStackTrace defaultCapture gNonWritable plainErr = (.ok plainErr, gNonWritable) :=
  ⟨stack_trace_limit_restore.1 defaultCapture gWritable plainErr plainErr rfl,
   stack_trace_limit_restore.2 gNonWritable plainErr rfl⟩

/-- C5: for every error the factory constructs successfully, calling its
installed string-conversion method returns exactly
`<name> [<code>]: <message>` built from the error's current `name`, its
registered code, and its current `message`. -/
theorem constructed_toString_roundtrip (isWindows : Bool) (b key : String)
    (args : List JsVal) (g : JsGlobal) (e : ErrObj) (g2 : JsGlobal)
    (h : NodeError defaultCapture isWindows b key args g = (.ok e, g2)) :
    jsToStringMethod e = some (e.name ++ " [" ++ key ++ "]: " ++ e.message) := by
  obtain ⟨m, hm, rfl⟩ := NodeError_ok_inv isWindows b key args g e g2 h
  rfl

/-- C5 witness: the `toString` of a concrete constructed
`ERR_UNKNOWN_FILE_EXTENSION` error. -/
theorem constructed_toString_roundtrip_witness :
    jsToStringMethod
        (finalErr "TypeError" "ERR_UNKNOWN_FILE_EXTENSION" "Unknown file extension \".xyz\" for /a/b.xyz") =
      some " [ERR_UNKNOWN_FILE_EXTENSION]: Unknown file extension \".xyz\" for /a/b.xyz" :=
  constructed_toString_roundtrip false "TypeError" "ERR_UNKNOWN_FILE_EXTENSION"
    [.vstr ".xyz", .vstr "/a/b.xyz"] gWritable
    (finalErr "TypeError" "ERR_UNKNOWN_FILE_EXTENSION" "Unknown file extension \".xyz\" for /a/b.xyz")
    gWritable rfl

/-- C6: after the trace is captured (its header carrying the temporary
`<BaseKindName> [<code>]` display name), `addCodeToName` resets the
error's `name` asymmetrically: to the bare base-kind name through a
non-enumerable property definition when the base kind is `SystemError`,
and to the empty string (a plain enumerable assignment) for every other
base kind. -/
theorem addCodeToName_asymmetric_reset (g : JsGlobal) (e : ErrObj) (name code : String) :
    ∃ e2, addCodeToName defaultCapture g e name code = (.ok e2, g) ∧
      e2.stackHeader = some (name ++ " [" ++ code ++ "]: " ++ e.message) ∧
      e2.name = (if name == "SystemError" then name else "") ∧
      e2.nameEnumerable = (if name == "SystemError" then false else true) := by
  unfold addCodeToName captureLargerStackTrace defaultCapture
  cases hw : isErrorStackTraceLimitWritable g <;>
    simp only [hw, Bool.false_eq_true, if_false, if_true] <;>
      by_cases hn : (name == "SystemError") = true <;>
        simp only [hn, Bool.false_eq_true, if_false, if_true] <;>
          exact ⟨_, rfl, by rw [append_colon_merge], rfl, rfl⟩

/-- C7: in the `ERR_INVALID_ARG_VALUE` rule, a value whose rendered
inspection string is longer than 128 characters is embedded as exactly its
first 128 characters followed by `...`, and a rendering of 128 characters
or fewer is embedded unchanged. -/
theorem invalid_arg_value_truncation (isWindows : Bool) (n : String) (v : JsVal) (r : String) :
    getMessage isWindows "ERR_INVALID_ARG_VALUE" [.vstr n, v, .vstr r] =
      .ok ("The " ++ (if n.contains '.' then "property" else "argument") ++ " '" ++ n ++ "' " ++ r ++
        ". Received " ++
        (if (inspect v).length > 128 then (inspect v).take 128 ++ "..." else inspect v)) := rfl

/-- C8: constructing `ERR_UNKNOWN_FILE_EXTENSION` with `".xyz"` and
`"/a/b.xyz"` yields the message `Unknown file extension ".xyz" for
/a/b.xyz` (the two `%s` placeholders substituted left-to-right) and
`code = "ERR_UNKNOWN_FILE_EXTENSION"`. -/
theorem unknown_file_extension_example :
    ((NodeError defaultCapture false "TypeError" "ERR_UNKNOWN_FILE_EXTENSION"
        [.vstr ".xyz", .vstr "/a/b.xyz"] gWritable).1).map (fun e => (e.code, e.message)) =
      .ok (some "ERR_UNKNOWN_FILE_EXTENSION", "Unknown file extension \".xyz\" for /a/b.xyz") := rfl

/-- C9: for every function rule, a call supplying exactly the required
arguments resolves as if each omitted optional trailing parameter had been
passed its declared default; in particular
`ERR_PACKAGE_PATH_NOT_EXPORTED("/pkg/", ".")` (base omitted) yields
`No "exports" main defined in /pkg/package.json`. -/
theorem optional_defaults_applied :
    (∀ (isWindows : Bool), ∀ ent ∈ registry isWindows,
      ∀ (len : Nat) (resolve : List JsVal → Except JsErr String),
        ent.rule = .fnRule len resolve →
        ∀ args : List JsVal, args.length = len →
          resolve args = resolve (args ++ optionalDefaults ent.code)) ∧
    getMessage false "ERR_PACKAGE_PATH_NOT_EXPORTED" [.vstr "/pkg/", .vstr "."] =
      .ok "No \"exports\" main defined in /pkg/package.json" := by
  refine ⟨?_, rfl⟩
  intro isWindows ent hent len resolve hrule args hlen
  simp [registry] at hent
  rcases hent with rfl|rfl|rfl|rfl|rfl|rfl|rfl|rfl|rfl|rfl <;> simp at hrule
  -- ERR_INVALID_MODULE_SPECIFIER (len 2)
  · obtain ⟨hl, hr⟩ := hrule; subst hl; subst hr
    rcases args with _|⟨a1,_|⟨a2,_|⟨a3,rest⟩⟩⟩ <;> simp at hlen
    rfl
  -- ERR_INVALID_PACKAGE_CONFIG (len 3)
  · obtain ⟨hl, hr⟩ := hrule; subst hl; subst hr
    rcases args with _|⟨a1,_|⟨a2,_|⟨a3,_|⟨a4,rest⟩⟩⟩⟩ <;> simp at hlen
    rfl
  -- ERR_INVALID_PACKAGE_TARGET (len 3)
  · obtain ⟨hl, hr⟩ := hrule; subst hl; subst hr
    rcases args with _|⟨a1,_|⟨a2,_|⟨a3,_|⟨a4,rest⟩⟩⟩⟩ <;> simp at hlen
    rfl
  -- ERR_MODULE_NOT_FOUND (len 2)
  · obtain ⟨hl, hr⟩ := hrule; subst hl; subst hr
    rcases args with _|⟨a1,_|⟨a2,_|⟨a3,rest⟩⟩⟩ <;> simp at hlen
    rfl
  -- ERR_PACKAGE_IMPORT_NOT_DEFINED (len 3)
  · obtain ⟨hl, hr⟩ := hrule; subst hl; subst hr
    rcases args with _|⟨a1,_|⟨a2,_|⟨a3,_|⟨a4,rest⟩⟩⟩⟩ <;> simp at hlen
    rfl
  -- ERR_PACKAGE_PATH_NOT_EXPORTED (len 2)
  · obtain ⟨hl, hr⟩ := hrule; subst hl; subst hr
    rcases args with _|⟨a1,_|⟨a2,_|⟨a3,rest⟩⟩⟩ <;> simp at hlen
    rfl
  -- ERR_INVALID_ARG_VALUE (len 2)
  · obtain ⟨hl, hr⟩ := hrule; subst hl; subst hr
    rcases args with _|⟨a1,_|⟨a2,_|⟨a3,rest⟩⟩⟩ <;> simp at hlen
    rfl
  -- ERR_UNSUPPORTED_ESM_URL_SCHEME (len 1)
  · obtain ⟨hl, hr⟩ := hrule; subst hl; subst hr
    rcases args with _|⟨a1,_|⟨a2,rest⟩⟩ <;> simp at hlen
    rfl

/-- C9 witness: `ERR_MODULE_NOT_FOUND` with exactly its two required
arguments resolves as if the omitted `type` had been passed its default
`"package"`. -/
theorem optional_defaults_applied_witness :
    ERR_MODULE_NOT_FOUND_msg [.vstr "x", .vstr "/b/"] =
      ERR_MODULE_NOT_FOUND_msg ([.vstr "x", .vstr "/b/"] ++ optionalDefaults "ERR_MODULE_NOT_FOUND") :=
  optional_defaults_applied.1 false
    ⟨"ERR_MODULE_NOT_FOUND", .fnRule 2 ERR_MODULE_NOT_FOUND_msg, "Error"⟩
    (by simp [registry]) 2 ERR_MODULE_NOT_FOUND_msg rfl [.vstr "x", .vstr "/b/"] rfl

/-- C10: every code registered in this module declares `Error` or
`TypeError` as its base kind — none uses `SystemError` — so every
successfully constructed error ends with `name = ""` (the `SystemError`
restore branch is unreachable) and its string conversion begins with
` [<code>]: `. -/
theorem no_system_error_in_registry (isWindows : Bool) :
    ∀ ent ∈ registry isWindows,
      (ent.baseName = "Error" ∨ ent.baseName = "TypeError") ∧
      ∀ (args : List JsVal) (g : JsGlobal) (e : ErrObj) (g2 : JsGlobal),
        NodeError defaultCapture isWindows ent.baseName ent.code args g = (.ok e, g2) →
          e.name = "" ∧ jsToStringMethod e = some (" [" ++ ent.code ++ "]: " ++ e.message) := by
  intro ent hent
  simp [registry] at hent
  rcases hent with rfl|rfl|rfl|rfl|rfl|rfl|rfl|rfl|rfl|rfl <;>
    exact ⟨by simp, fun args g e g2 h => by
      obtain ⟨m, hm, rfl⟩ := NodeError_ok_inv _ _ _ _ _ _ _ h
      exact ⟨rfl, rfl⟩⟩

/-- C10 witness: a concrete constructed `ERR_UNSUPPORTED_DIR_IMPORT` error
has empty `name` and a string conversion starting with ` [<code>]: `. -/
theorem no_system_error_in_registry_witness :
    (finalErr "Error" "ERR_UNSUPPORTED_DIR_IMPORT"
        "Directory import '/d/' is not supported resolving ES modules imported from /b.js").name = "" ∧
    jsToStringMethod (finalErr "Error" "ERR_UNSUPPORTED_DIR_IMPORT"
        "Directory import '/d/' is not supported resolving ES modules imported from /b.js") =
      some " [ERR_UNSUPPORTED_DIR_IMPORT]: Directory import '/d/' is not supported resolving ES modules imported from /b.js" :=
  (no_system_error_in_registry false
    ⟨"ERR_UNSUPPORTED_DIR_IMPORT",
     .strRule "Directory import '%s' is not supported resolving ES modules imported from %s", "Error"⟩
    (by simp [registry])).2 [.vstr "/d/", .vstr "/b.js"] gWritable
    (finalErr "Error" "ERR_UNSUPPORTED_DIR_IMPORT"
      "Directory import '/d/' is not supported resolving ES modules imported from /b.js")
    gWritable rfl

end NodeErrors
